import Mathlib

/-!
Verification development for the autonomous-monetization-optimizer repository.

Shallow embedding of the three source modules:
  * `src/master_agent.py`            — `MasterAgent` (dispatcher / orchestrator)
  * `src/monetization_optimizer.py`  — `MonetizationOptimizer`
  * `src/revenue_analytics.py`       — `RevenueAnalytics`

Python dictionaries (`Dict[str, Any]`) are embedded as association lists of
`String × Value`, where a later entry overrides an earlier one on lookup;
this makes `{**a, **b}` literally `a ++ b`.  Python exceptions are embedded
via `Except Err`, with `Err` carrying one constructor per exception class
named in the repository.  A `try ... except Exception: raise E(...)` block
becomes a `match` on the `Except` result of the body, turning every error
into `E`.
-/

/-- Embedded Python values, enough for the dictionaries the code builds. -/
inductive Value where
  | VStr : String → Value
  | VNat : Nat → Value
  | VDict : List (String × Value) → Value
  | VNone : Value
deriving Repr

open Value

/-- A Python `Dict[str, Any]` as an association list; later entries win. -/
abbrev Dict := List (String × Value)

/-- Dictionary lookup: the value of the LAST entry with the given key, so
that concatenation models Python's `{**a, **b}` merge. -/
def dget (d : Dict) (k : String) : Option Value :=
  match d with
  | [] => none
  | (k', v) :: rest =>
    match dget rest k with
    | some v' => some v'
    | none => if k' = k then some v else none

/-- Field access on a `Value` that is a dictionary. -/
def vget (v : Value) (k : String) : Option Value :=
  match v with
  | VDict d => dget d k
  | _ => none

/-- The exception classes of the repository.  `StrategyNotFoundError` and
`IntegrationError` are defined in `src/master_agent.py`; the spec's error
taxonomy (§7) also names `InvalidPayloadError` and `AnalysisError`, which
the code raises.  `otherError` stands for arbitrary exceptions raised
inside injected collaborators or strategy handlers. -/
inductive Err where
  | strategyNotFoundError : String → Err
  | integrationError : String → Err
  | invalidPayloadError : String → Err
  | analysisError : String → Err
  | otherError : String → Err
deriving Repr, DecidableEq

/-- A strategy handler: a function from an execution context to a result,
which may raise (`Except`). This embeds the `'executor'` entry of a
registry record in `src/master_agent.py`. -/
def Handler := Dict → Except Err Value

/-- The `MasterAgent` state: its strategy registry, plus the readings of
the injected clock collaborator (`datetime.now().isoformat()` in
`_get_current_timestamp`). -/
structure Agent where
  strategies : List (String × Handler)
  clock_now : String

/-- Registry lookup, embedding `self.strategies[strategy_id]`. -/
def regFind (reg : List (String × Handler)) (sid : String) : Option Handler :=
  match reg with
  | [] => none
  | (k, h) :: rest => if k = sid then some h else regFind rest sid

/-- Modelled from the spec: `MasterAgent._strategy_exists` is called by
`execute_strategy` but is not defined anywhere under `src/`; per the spec
(§4.1, "`exists(id)` is a pure boolean query with no side effect" checking
whether the id is registered in the registry), it is registry membership. -/
def strategy_exists (a : Agent) (sid : String) : Bool :=
  (regFind a.strategies sid).isSome

/-- `MasterAgent._get_system_id`: the source returns the constant
`"default-system-id"` (a placeholder identity provider). -/
def get_system_id (_a : Agent) : String :=
  "default-system-id"

/-- `MasterAgent._prepare_context`: builds
`{'timestamp': ..., 'system_id': ...}` and returns `{**context, **payload}`,
i.e. the common keys followed by the payload, payload winning on conflict. -/
def prepare_context (a : Agent) (payload : Dict) : Dict :=
  [("timestamp", VStr a.clock_now), ("system_id", VStr (get_system_id a))]
    ++ payload

/-- `MasterAgent.execute_strategy`, instrumented: besides the `Except`
result it returns the post-call agent state (the method never assigns to
`self.strategies`, so this is the input agent) and the list of strategy ids
whose handler was invoked (the `self.strategies[strategy_id]['executor'](context)`
line is the only invocation site).  The whole body sits in a
`try ... except Exception:` that logs and re-raises
`IntegrationError(f"Failed to execute strategy {strategy_id}")`. -/
def execute_strategy_run (a : Agent) (strategy_id : String) (payload : Dict) :
    Agent × List String × Except Err Value :=
  let body : List String × Except Err Value :=
    if strategy_exists a strategy_id = false then
      ([], .error (.strategyNotFoundError
        ("Strategy " ++ strategy_id ++ " not found")))
    else
      let context := prepare_context a payload
      match regFind a.strategies strategy_id with
      | none => ([], .error (.strategyNotFoundError
          ("Strategy " ++ strategy_id ++ " not found")))
      | some executor =>
        match executor context with
        | .ok result =>
          ([strategy_id], .ok (VDict [("status", VStr "success"), ("result", result)]))
        | .error e => ([strategy_id], .error e)
  match body.2 with
  | .ok v => (a, body.1, .ok v)
  | .error _ =>
    (a, body.1, .error (.integrationError
      ("Failed to execute strategy " ++ strategy_id)))

/-- `MasterAgent.execute_strategy` as seen by a caller: just the raised
exception or returned envelope. -/
def execute_strategy (a : Agent) (strategy_id : String) (payload : Dict) :
    Except Err Value :=
  (execute_strategy_run a strategy_id payload).2.2

/-- `MonetizationOptimizer._is_valid_payload`:
`all(field in payload for field in ['revenue_target', 'time_frame'])`. -/
def is_valid_payload (payload : Dict) : Bool :=
  ["revenue_target", "time_frame"].all (fun field => (dget payload field).isSome)

/-- The `MonetizationOptimizer` state: its master agent and the injected
pricing collaborator. `PricingModel.predict_optimal_prices` is called but
not defined under `src/`; per the spec (§6,
"`predictOptimalPrices(payload) -> parameters mapping`; may fail") it is an
abstract function from a payload to parameters that may fail. -/
structure Optimizer where
  master_agent : Agent
  predict_optimal_prices : Dict → Except Err Dict

/-- `MonetizationOptimizer.optimize_revenue`: validates the payload
(raising `InvalidPayloadError("Invalid payload provided")` if invalid),
asks the pricing model for optimized parameters, dispatches through the
master agent, and wraps the dispatch result in a fresh
`{'status': 'success', 'result': ...}` envelope.  The whole body sits in a
`try ... except Exception:` that logs and re-raises
`IntegrationError("Failed to optimize revenue streams")`. -/
def optimize_revenue (o : Optimizer) (strategy_id : String) (payload : Dict) :
    Except Err Value :=
  let body : Except Err Value :=
    if is_valid_payload payload = false then
      .error (.invalidPayloadError "Invalid payload provided")
    else
      match o.predict_optimal_prices payload with
      | .error e => .error e
      | .ok optimized_params =>
        match execute_strategy o.master_agent strategy_id optimized_params with
        | .error e => .error e
        | .ok result => .ok (VDict [("status", VStr "success"), ("result", result)])
  match body with
  | .ok v => .ok v
  | .error _ => .error (.integrationError "Failed to optimize revenue streams")

/-- The `RevenueAnalytics` state: the data-processing and metrics
collaborators (`self.data_processor.transform`,
`self.metrics_collector.compute`), either of which may fail. -/
structure RevenueAnalytics where
  transform : Dict → Except Err Value
  compute : Value → Except Err Value

/-- `DataProcessor.transform` as defined in the source: its body is `pass`,
so it returns `None` for every input. -/
def DataProcessor_transform (_data : Dict) : Except Err Value :=
  .ok VNone

/-- `MetricsCollector.compute` as defined in the source: its body is only a
docstring, so it returns `None` for every input. -/
def MetricsCollector_compute (_processed_data : Value) : Except Err Value :=
  .ok VNone

/-- The collaborators a fresh `RevenueAnalytics()` is constructed with. -/
def RevenueAnalytics.fresh : RevenueAnalytics :=
  ⟨DataProcessor_transform, MetricsCollector_compute⟩

/-- `RevenueAnalytics._generate_insights`: returns a literal constant
dictionary, ignoring the `metrics` argument. -/
def generate_insights (_metrics : Value) : Dict :=
  [("trend", VStr "increasing"),
   ("recommendation", VStr "Increase pricing during peak periods")]

/-- `RevenueAnalytics.analyze_revenue_trends`: transform, compute, then
build `{'status': 'success', 'analysis': ...}`.  The whole body sits in a
`try ... except Exception:` that logs and re-raises
`AnalysisError("Failed to generate revenue analysis")`. -/
def analyze_revenue_trends (ra : RevenueAnalytics) (data : Dict) :
    Except Err Value :=
  let body : Except Err Value :=
    match ra.transform data with
    | .error e => .error e
    | .ok processed_data =>
      match ra.compute processed_data with
      | .error e => .error e
      | .ok metrics =>
        .ok (VDict [("status", VStr "success"),
                    ("analysis", VDict (generate_insights metrics))])
  match body with
  | .ok v => .ok v
  | .error _ => .error (.analysisError "Failed to generate revenue analysis")

/-- Lookup distributes over the append that embeds `{**a, **b}`: the right
dictionary wins when it has the key. -/
theorem dget_append (a b : Dict) (k : String) :
    dget (a ++ b) k = match dget b k with
                      | some v => some v
                      | none => dget a k := by
  induction a with
  | nil => cases h : dget b k <;> simp [dget, h]
  | cons hd tl ih =>
    obtain ⟨k', v⟩ := hd
    simp only [List.cons_append, dget]
    rw [List.append_eq, ih]
    cases h : dget b k <;> cases h' : dget tl k <;> simp

/-- Auxiliary: the two-key common context looked up at `"timestamp"`. -/
theorem dget_common_timestamp (a : Agent) :
    dget [("timestamp", VStr a.clock_now), ("system_id", VStr (get_system_id a))]
      "timestamp" = some (VStr a.clock_now) := by
  simp [dget]

/-- Auxiliary: the two-key common context looked up at `"system_id"`. -/
theorem dget_common_system_id (a : Agent) :
    dget [("timestamp", VStr a.clock_now), ("system_id", VStr (get_system_id a))]
      "system_id" = some (VStr (get_system_id a)) := by
  simp [dget]

/-- C1: the claim says an unregistered strategy id makes `execute_strategy`
fail with `StrategyNotFoundError` raised as-is.  The code instead raises
`StrategyNotFoundError` inside the `try` block, where the blanket
`except Exception` catches it and re-raises
`IntegrationError("Failed to execute strategy ...")`: for every agent,
unregistered id and payload the caller receives `IntegrationError`, never
`StrategyNotFoundError`. -/
theorem execute_strategy_wraps_not_found (a : Agent) (sid : String) (payload : Dict)
    (h : strategy_exists a sid = false) :
    execute_strategy a sid payload =
      .error (.integrationError ("Failed to execute strategy " ++ sid)) := by
  simp [execute_strategy, execute_strategy_run, h]

/-- C1 witness: concrete failing input — empty registry, id `"missing"`,
empty payload — yields the wrapped `IntegrationError`. -/
theorem execute_strategy_wraps_not_found_witness :
    strategy_exists ⟨[], "2024-01-01T00:00:00"⟩ "missing" = false ∧
      execute_strategy ⟨[], "2024-01-01T00:00:00"⟩ "missing" [] =
        .error (.integrationError "Failed to execute strategy missing") :=
  ⟨rfl, execute_strategy_wraps_not_found ⟨[], "2024-01-01T00:00:00"⟩ "missing" [] rfl⟩

/-- C2: the claim says `optimize_revenue` fails with `InvalidPayloadError`
(unwrapped) exactly when the payload lacks `revenue_target` or
`time_frame`.  The code raises `InvalidPayloadError` inside the `try`
block, where the blanket `except Exception` catches it and re-raises
`IntegrationError("Failed to optimize revenue streams")`; moreover every
error `optimize_revenue` ever signals to a caller is an
`IntegrationError`, so `InvalidPayloadError` can never reach the caller. -/
theorem optimize_revenue_wraps_invalid_payload :
    (∀ (o : Optimizer) (sid : String) (payload : Dict),
      is_valid_payload payload = false →
        optimize_revenue o sid payload =
          .error (.integrationError "Failed to optimize revenue streams")) ∧
    (∀ (o : Optimizer) (sid : String) (payload : Dict) (e : Err),
      optimize_revenue o sid payload = .error e →
        ∃ m, e = .integrationError m) := by
  constructor
  · intro o sid payload h
    simp [optimize_revenue, h]
  · intro o sid payload e h
    simp only [optimize_revenue] at h
    split at h
    · exact absurd h (by simp)
    · simp at h
      exact ⟨"Failed to optimize revenue streams", h.symm⟩

/-- C2 witness: concrete failing input — payload `{}` lacking both required
fields — yields the wrapped `IntegrationError`, not `InvalidPayloadError`. -/
theorem optimize_revenue_wraps_invalid_payload_witness :
    is_valid_payload [] = false ∧
      optimize_revenue ⟨⟨[], "t"⟩, fun p => .ok p⟩ "s" [] =
        .error (.integrationError "Failed to optimize revenue streams") :=
  ⟨rfl, optimize_revenue_wraps_invalid_payload.1 ⟨⟨[], "t"⟩, fun p => .ok p⟩ "s" [] rfl⟩

/-- C3: for every registered strategy id, if the bound handler raises any
exception during `execute_strategy`, the caller receives
`IntegrationError` whose message references that strategy id — never the
handler's raw error, whatever it was. -/
theorem execute_strategy_handler_failure_normalized
    (a : Agent) (sid : String) (payload : Dict) (h : Handler) (e : Err)
    (hreg : regFind a.strategies sid = some h)
    (hfail : h (prepare_context a payload) = .error e) :
    execute_strategy a sid payload =
      .error (.integrationError ("Failed to execute strategy " ++ sid)) := by
  simp [execute_strategy, execute_strategy_run, strategy_exists, hreg, hfail]

/-- C3 witness: a registry binding `"s1"` to a handler that raises an
arbitrary exception; the caller sees `IntegrationError` naming `"s1"`. -/
theorem execute_strategy_handler_failure_normalized_witness :
    regFind [("s1", fun _ => .error (.otherError "boom"))] "s1" =
        some (fun _ => .error (.otherError "boom")) ∧
      execute_strategy ⟨[("s1", fun _ => .error (.otherError "boom"))], "t"⟩ "s1" [] =
        .error (.integrationError "Failed to execute strategy s1") :=
  ⟨rfl, execute_strategy_handler_failure_normalized
    ⟨[("s1", fun _ => .error (.otherError "boom"))], "t"⟩ "s1" []
    (fun _ => .error (.otherError "boom")) (.otherError "boom") rfl rfl⟩

/-- C4: context merge is last-writer-wins — every key present in the
payload keeps its payload value in the context built by `_prepare_context`,
even when it collides with the common keys; in particular a payload
`{system_id: "x"}` yields a context whose `system_id` is `"x"`, not the
process identity. -/
theorem prepare_context_last_writer_wins :
    (∀ (a : Agent) (payload : Dict) (k : String) (v : Value),
      dget payload k = some v → dget (prepare_context a payload) k = some v) ∧
    (∀ a : Agent,
      dget (prepare_context a [("system_id", VStr "x")]) "system_id" =
        some (VStr "x")) := by
  constructor
  · intro a payload k v hv
    unfold prepare_context
    rw [dget_append, hv]
  · intro a
    unfold prepare_context
    rw [dget_append]
    simp [dget]

/-- C4 witness: with a concrete agent and payload `{system_id: "x"}`, the
built context maps `system_id` to `"x"`. -/
theorem prepare_context_last_writer_wins_witness :
    dget ([("system_id", VStr "x")] : Dict) "system_id" = some (VStr "x") ∧
      dget (prepare_context ⟨[], "t0"⟩ [("system_id", VStr "x")]) "system_id" =
        some (VStr "x") :=
  ⟨rfl, prepare_context_last_writer_wins.1 ⟨[], "t0"⟩ [("system_id", VStr "x")]
    "system_id" (VStr "x") rfl⟩

/-- C5: any failure of the data-processing collaborator's `transform` or
the metrics collaborator's `compute` during `analyze_revenue_trends`
reaches the caller as `AnalysisError`, never as the collaborator's raw
error. -/
theorem analyze_revenue_trends_failure_normalized
    (ra : RevenueAnalytics) (data : Dict)
    (h : (∃ e, ra.transform data = .error e) ∨
         (∃ pd e, ra.transform data = .ok pd ∧ ra.compute pd = .error e)) :
    analyze_revenue_trends ra data =
      .error (.analysisError "Failed to generate revenue analysis") := by
  unfold analyze_revenue_trends
  rcases h with ⟨e, he⟩ | ⟨pd, e, hpd, he⟩
  · simp [he]
  · simp [hpd, he]

/-- C5 witness: a transform collaborator that raises an arbitrary error;
the caller sees `AnalysisError`. -/
theorem analyze_revenue_trends_failure_normalized_witness :
    (RevenueAnalytics.mk (fun _ => .error (.otherError "io"))
        MetricsCollector_compute).transform [] = .error (.otherError "io") ∧
      analyze_revenue_trends
          ⟨fun _ => .error (.otherError "io"), MetricsCollector_compute⟩ [] =
        .error (.analysisError "Failed to generate revenue analysis") :=
  ⟨rfl, analyze_revenue_trends_failure_normalized
    ⟨fun _ => .error (.otherError "io"), MetricsCollector_compute⟩ []
    (Or.inl ⟨.otherError "io", rfl⟩)⟩

/-- C6: for every unregistered strategy id and every payload, the (failing)
`execute_strategy` call invokes no strategy handler and leaves the agent's
strategy registry — indeed the whole agent state — unchanged, and it does
fail. -/
theorem execute_strategy_unregistered_no_effect
    (a : Agent) (sid : String) (payload : Dict)
    (h : strategy_exists a sid = false) :
    (execute_strategy_run a sid payload).1 = a ∧
      (execute_strategy_run a sid payload).2.1 = [] ∧
      ∃ e, (execute_strategy_run a sid payload).2.2 = .error e := by
  refine ⟨?_, ?_, ?_⟩ <;> simp [execute_strategy_run, h]

/-- C6 witness: registry with one unrelated binding, unregistered id
`"missing_id"`, empty payload. -/
theorem execute_strategy_unregistered_no_effect_witness :
    strategy_exists ⟨[("s1", fun _ => .ok VNone)], "t"⟩ "missing_id" = false ∧
      (execute_strategy_run ⟨[("s1", fun _ => .ok VNone)], "t"⟩ "missing_id" []).1 =
        ⟨[("s1", fun _ => .ok VNone)], "t"⟩ ∧
      (execute_strategy_run ⟨[("s1", fun _ => .ok VNone)], "t"⟩ "missing_id" []).2.1 = [] :=
  ⟨rfl,
    (execute_strategy_unregistered_no_effect
      ⟨[("s1", fun _ => .ok VNone)], "t"⟩ "missing_id" [] rfl).1,
    (execute_strategy_unregistered_no_effect
      ⟨[("s1", fun _ => .ok VNone)], "t"⟩ "missing_id" [] rfl).2.1⟩

/-- C7: `_prepare_context` never fails (it is a total function); the built
context always has a `timestamp` entry and a `system_id` entry — taken from
the clock reading and the identity provider when the payload does not
override them — and keeps every payload entry. -/
theorem prepare_context_total_and_complete (a : Agent) (payload : Dict) :
    (∃ t, dget (prepare_context a payload) "timestamp" = some t) ∧
    (∃ s, dget (prepare_context a payload) "system_id" = some s) ∧
    (∀ k v, dget payload k = some v → dget (prepare_context a payload) k = some v) ∧
    (dget payload "timestamp" = none →
      dget (prepare_context a payload) "timestamp" = some (VStr a.clock_now)) ∧
    (dget payload "system_id" = none →
      dget (prepare_context a payload) "system_id" = some (VStr (get_system_id a))) := by
  refine ⟨?_, ?_, ?_, ?_, ?_⟩
  · unfold prepare_context
    rw [dget_append]
    cases h : dget payload "timestamp"
    · exact ⟨_, by rw [dget_common_timestamp]⟩
    · exact ⟨_, rfl⟩
  · unfold prepare_context
    rw [dget_append]
    cases h : dget payload "system_id"
    · exact ⟨_, by rw [dget_common_system_id]⟩
    · exact ⟨_, rfl⟩
  · intro k v hv
    unfold prepare_context
    rw [dget_append, hv]
  · intro h
    unfold prepare_context
    rw [dget_append, h, dget_common_timestamp]
  · intro h
    unfold prepare_context
    rw [dget_append, h, dget_common_system_id]

/-- C7 witness: empty payload and a concrete clock reading. -/
theorem prepare_context_total_and_complete_witness :
    dget (prepare_context ⟨[], "2024-01-01T00:00:00"⟩ []) "timestamp" =
        some (VStr "2024-01-01T00:00:00") ∧
      dget (prepare_context ⟨[], "2024-01-01T00:00:00"⟩ []) "system_id" =
        some (VStr "default-system-id") :=
  ⟨(prepare_context_total_and_complete ⟨[], "2024-01-01T00:00:00"⟩ []).2.2.2.1 rfl,
   (prepare_context_total_and_complete ⟨[], "2024-01-01T00:00:00"⟩ []).2.2.2.2 rfl⟩

/-- C8: `analyze_revenue_trends` is deterministic — two calls with
identical raw data and identical (deterministic, i.e. function-valued)
transform and compute collaborators return identical results. -/
theorem analyze_revenue_trends_deterministic
    (ra₁ ra₂ : RevenueAnalytics) (d₁ d₂ : Dict)
    (ht : ra₁.transform = ra₂.transform) (hc : ra₁.compute = ra₂.compute)
    (hd : d₁ = d₂) :
    analyze_revenue_trends ra₁ d₁ = analyze_revenue_trends ra₂ d₂ := by
  cases ra₁
  cases ra₂
  simp only at ht hc
  subst ht hc hd
  rfl

/-- C8 witness: two structurally equal fresh analytics instances on the
same data. -/
theorem analyze_revenue_trends_deterministic_witness :
    analyze_revenue_trends RevenueAnalytics.fresh [("q", VNat 1)] =
      analyze_revenue_trends RevenueAnalytics.fresh [("q", VNat 1)] :=
  analyze_revenue_trends_deterministic RevenueAnalytics.fresh RevenueAnalytics.fresh
    [("q", VNat 1)] [("q", VNat 1)] rfl rfl rfl

/-- C9: on success `optimize_revenue` double-wraps the envelope — it
returns `{'status': 'success', 'result': r}` where `r` is itself the
dispatcher's full success envelope `{'status': 'success', 'result': out}`,
so the handler's output sits two `result` levels deep. -/
theorem optimize_revenue_double_wraps
    (o : Optimizer) (sid : String) (payload params : Dict) (h : Handler) (out : Value)
    (hvalid : is_valid_payload payload = true)
    (hpm : o.predict_optimal_prices payload = .ok params)
    (hreg : regFind o.master_agent.strategies sid = some h)
    (hrun : h (prepare_context o.master_agent params) = .ok out) :
    optimize_revenue o sid payload =
      .ok (VDict [("status", VStr "success"),
                  ("result", VDict [("status", VStr "success"), ("result", out)])]) := by
  simp [optimize_revenue, execute_strategy, execute_strategy_run, strategy_exists,
    hvalid, hpm, hreg, hrun]

/-- C9 witness: valid payload, identity pricing model, handler returning a
concrete value; the output nests two success envelopes. -/
theorem optimize_revenue_double_wraps_witness :
    is_valid_payload [("revenue_target", VNat 100), ("time_frame", VStr "Q1")] = true ∧
      optimize_revenue
          ⟨⟨[("s1", fun _ => .ok (VNat 7))], "t"⟩, fun p => .ok p⟩ "s1"
          [("revenue_target", VNat 100), ("time_frame", VStr "Q1")] =
        .ok (VDict [("status", VStr "success"),
                    ("result", VDict [("status", VStr "success"), ("result", VNat 7)])]) :=
  ⟨rfl, optimize_revenue_double_wraps
    ⟨⟨[("s1", fun _ => .ok (VNat 7))], "t"⟩, fun p => .ok p⟩ "s1"
    [("revenue_target", VNat 100), ("time_frame", VStr "Q1")]
    [("revenue_target", VNat 100), ("time_frame", VStr "Q1")]
    (fun _ => .ok (VNat 7)) (VNat 7) rfl rfl rfl rfl⟩

/-- Auxiliary: every `analyze_revenue_trends` call either fails with the
normalized `AnalysisError` or succeeds with the envelope whose `analysis`
field comes from `generate_insights` on some metrics value. -/
theorem analyze_revenue_trends_shape (ra : RevenueAnalytics) (data : Dict) :
    analyze_revenue_trends ra data =
        .error (.analysisError "Failed to generate revenue analysis") ∨
      ∃ m, analyze_revenue_trends ra data =
        .ok (VDict [("status", VStr "success"),
                    ("analysis", VDict (generate_insights m))]) := by
  unfold analyze_revenue_trends
  cases ht : ra.transform data with
  | error e => left; simp [ht]
  | ok pd =>
    cases hc : ra.compute pd with
    | error e => left; simp [ht, hc]
    | ok m => right; exact ⟨m, by simp [ht, hc]⟩

/-- C10: `_generate_insights` returns the same constant mapping for every
metrics input, so the `analysis` field of every successful
`analyze_revenue_trends` call is that constant, independent of the raw
data and the computed metrics. -/
theorem generate_insights_constant :
    (∀ metrics : Value, generate_insights metrics =
      [("trend", VStr "increasing"),
       ("recommendation", VStr "Increase pricing during peak periods")]) ∧
    (∀ (ra : RevenueAnalytics) (data : Dict) (v : Value),
      analyze_revenue_trends ra data = .ok v →
        vget v "analysis" =
          some (VDict [("trend", VStr "increasing"),
                       ("recommendation", VStr "Increase pricing during peak periods")])) := by
  constructor
  · intro metrics
    rfl
  · intro ra data v h
    rcases analyze_revenue_trends_shape ra data with herr | ⟨m, hok⟩
    · rw [h] at herr
      exact absurd herr (by simp)
    · rw [h] at hok
      simp at hok
      subst hok
      rfl

/-- C10 witness: the fresh analytics instance on empty data succeeds and
its `analysis` field is the constant insight mapping. -/
theorem generate_insights_constant_witness :
    vget (VDict [("status", VStr "success"),
          ("analysis", VDict [("trend", VStr "increasing"),
            ("recommendation", VStr "Increase pricing during peak periods")])])
        "analysis" =
      some (VDict [("trend", VStr "increasing"),
        ("recommendation", VStr "Increase pricing during peak periods")]) :=
  generate_insights_constant.2 RevenueAnalytics.fresh []
    (VDict [("status", VStr "success"),
      ("analysis", VDict [("trend", VStr "increasing"),
        ("recommendation", VStr "Increase pricing during peak periods")])]) rfl
